import Mathlib

/-!
# Verification of the oop-ext weak-reference callback core

Shallow embedding of `oop_ext.foundation.callback` (`_callback.py`,
`_priority_callback.py`, `_shortcuts.py`, `single_call_callback.py`) and of
`oop_ext.foundation.weak_ref.WeakList`.

Modelling conventions:

* Python object identities (`id(x)`) are natural numbers.  A heap is modelled
  by a predicate `alive : Nat → Bool` saying which object ids are currently
  live; a `weakref.ref` to object `o` resolves to the object iff `alive o`.
* A callable is a tagged value mirroring the classification used throughout
  `_callback.py` (see the "Determining kind of callable" table there):
  bound method (`__self__` not `None`), unbound/class-scoped method
  (`__self__` is `None` but `__func__` present), a callable *object*
  (`_IsCallableObject` true: weakly referenced), and a plain function
  (free function / builtin / strong reference).
* The registry `odict` is modelled as an association list in iteration order;
  keys are unique for lists built by the registry operations.
* Invoked callables may mutate the registry; this is modelled by a
  `behavior` function assigning to each callable the list of
  register/unregister actions it performs on the registry when invoked.
  Dispatch returns the final registry together with the *trace*: the list of
  (callable, argument-list) invocations, in order.
* The `_CallbackWrapper` / `WeakMethodProxy` unwrapping branches of
  `_GetKey`/`_GetInfo` are not modelled: no claim under verification
  exercises them (`Before`/`After` are only used with
  `sender_as_parameter=False` here).
-/

/-- The kinds of Python callables distinguished by `_callback.py`. -/
inductive PyCallable where
  /-- A bound method: `__self__` is the object `selfId`, `__func__` is the
  function object `funcId`, and `__self__.__class__` is `classId`. -/
  | boundMethod (selfId funcId classId : Nat)
  /-- A method-like object whose `__self__` is `None`: `__func__` is `funcId`
  and `GetClassForUnboundMethod` yields `classId`. -/
  | unboundMethod (funcId classId : Nat)
  /-- A callable *object* (`_IsCallableObject` returns `True`): it is stored
  behind `weakref.ref`, so its liveness matters. -/
  | callableObject (objId : Nat)
  /-- A plain function / builtin / strongly-referenced callable
  (`_IsCallableObject` returns `False`, no `__self__`/`__func__`). -/
  | function (funcId : Nat)
deriving DecidableEq, Repr

/-- The identity key computed by `Callback._GetKey`: a 3-tuple of ids for a
bound method, a 2-tuple for an unbound method, a bare id otherwise.  The
three Python shapes can never compare equal to each other, which the three
constructors capture. -/
inductive CallbackKey where
  | keyBound (selfId funcId classId : Nat)
  | keyUnbound (funcId classId : Nat)
  | keyPlain (objId : Nat)
deriving DecidableEq, Repr

/-- The info triple built by `Callback._GetInfo`:
`(func_obj, func_func, func_class)` where `func_obj` is a weak reference
(`none` models Python `None`, `some o` a `weakref.ref` to object `o`),
`func_func` the strongly held function object and `func_class` the class. -/
structure CallbackInfo where
  func_obj : Option Nat
  func_func : Option Nat
  func_class : Option Nat
deriving DecidableEq, Repr

namespace Callback

/-- `Callback._GetKey` (`_callback.py`): bound method ↦
`(id(__self__), id(__func__), id(__self__.__class__))`; `__self__ is None` ↦
`(id(__func__), id(GetClassForUnboundMethod(func)))`; `AttributeError`
(not a method) ↦ `id(func)`. -/
def GetKey : PyCallable → CallbackKey
  | .boundMethod s f c => .keyBound s f c
  | .unboundMethod f c => .keyUnbound f c
  | .callableObject o => .keyPlain o
  | .function f => .keyPlain f

/-- `Callback._GetInfo` (`_callback.py`): a callable object is stored as
`(weakref.ref(func), None, None)`; a bound method as
`(weakref.ref(__self__), __func__, __self__.__class__)`; an unbound method
as `(None, __func__, GetClassForUnboundMethod(func))`; any other callable
as `(None, func, None)` (strong reference). -/
def GetInfo : PyCallable → CallbackInfo
  | .boundMethod s f c => ⟨some s, some f, some c⟩
  | .unboundMethod f c => ⟨none, some f, some c⟩
  | .callableObject o => ⟨some o, none, none⟩
  | .function f => ⟨none, some f, none⟩

/-- One registry entry: `key -> (info, extra_args)` as stored in the
insertion-ordered `odict self._callbacks`. -/
abbrev Entry := CallbackKey × CallbackInfo × List Nat

/-- The `odict` of callbacks, in iteration order. -/
abbrev Registry := List Entry

/-- `dict.pop(key, None)` / `del dict[key]` guarded by `KeyError`: removes
the binding for `key` (a no-op when absent). -/
def popKey {β : Type} (key : CallbackKey) : List (CallbackKey × β) → List (CallbackKey × β)
  | [] => []
  | e :: rest => if e.1 = key then popKey key rest else e :: popKey key rest

/-- `dict.get(key)`: the value bound to `key`, if any. -/
def lookupKey {β : Type} (key : CallbackKey) : List (CallbackKey × β) → Option β
  | [] => none
  | e :: rest => if e.1 = key then some e.2 else lookupKey key rest

/-- `Callback.Register` (`_callback.py`): computes the key, pops any existing
entry for it, then assigns `callbacks[key] = (info, extra_args)` — for a
fresh key an `odict` assignment appends at the end of iteration order. -/
def Register (reg : Registry) (func : PyCallable) (extra : List Nat) : Registry :=
  popKey (GetKey func) reg ++ [(GetKey func, GetInfo func, extra)]

/-- `Callback._UnregisterByKey`: `del self._callbacks[key]`, swallowing
`KeyError`. -/
def UnregisterByKey (reg : Registry) (key : CallbackKey) : Registry :=
  popKey key reg

/-- `Callback.Unregister`: unregister by the callable's identity key. -/
def Unregister (reg : Registry) (func : PyCallable) : Registry :=
  UnregisterByKey reg (GetKey func)

/-- A registry mutation performed by an invoked callable (calls made by user
code back into the same registry during dispatch). -/
inductive RegAction where
  | register (func : PyCallable) (extra : List Nat)
  | unregister (func : PyCallable)
deriving Repr

/-- Apply one mutation to the registry. -/
def applyAction (reg : Registry) : RegAction → Registry
  | .register f e => Register reg f e
  | .unregister f => Unregister reg f

/-- The behaviour of invoked callables: which registry mutations each
callable performs when it is called during dispatch. -/
abbrev Behavior := PyCallable → List RegAction

/-- First phase of `Callback.__call__`: the loop
`for cb_id, info_and_extra_args in list(callbacks.items())` walks a *copy*
of the items, resolving each entry's weak slot.  A live bound entry
contributes `types.MethodType(func_func, func_obj)`; a live callable object
contributes itself; an entry with no `__self__` contributes `func_func`
directly; an entry whose receiver is dead is deleted from the live registry
(`del callbacks[cb_id]`) and skipped.  Returns the pruned registry and the
`to_call` list of (resolved callable, extra_args). -/
def buildToCall (alive : Nat → Bool) : List Entry → Registry → Registry × List (PyCallable × List Nat)
  | [], reg => (reg, [])
  | e :: rest, reg =>
    match e.2.1.func_obj with
    | some o =>
      if alive o then
        let item : PyCallable × List Nat :=
          match e.2.1.func_func with
          | none => (.callableObject o, e.2.2)
          | some f => (.boundMethod o f (e.2.1.func_class.getD 0), e.2.2)
        let r := buildToCall alive rest reg
        (r.1, item :: r.2)
      else
        buildToCall alive rest (UnregisterByKey reg e.1)
    | none =>
      match e.2.1.func_func with
      | some f =>
        let r := buildToCall alive rest reg
        (r.1, (.function f, e.2.2) :: r.2)
      | none =>
        -- unreachable for entries produced by `GetInfo`: an entry always has
        -- `func_obj` or `func_func`
        buildToCall alive rest reg

/-- Second phase of `Callback.__call__`: `for func, extra_args in to_call:
func(*extra_args + args, **kwargs)`.  Each invocation is recorded in the
trace with its full argument list, and the callable's registry mutations
(if any) are applied to the live registry. -/
def runToCall (behavior : Behavior) (args : List Nat) :
    List (PyCallable × List Nat) → Registry → Registry × List (PyCallable × List Nat)
  | [], reg => (reg, [])
  | (f, extra) :: rest, reg =>
    let reg1 := (behavior f).foldl applyAction reg
    let r := runToCall behavior args rest reg1
    (r.1, (f, extra ++ args) :: r.2)

/-- `Callback.__call__`: early-return on an empty registry, then the two
phases above.  Result: the registry after the round and the trace of
invocations made in the round. -/
def call (alive : Nat → Bool) (behavior : Behavior) (args : List Nat) (reg : Registry) :
    Registry × List (PyCallable × List Nat) :=
  if reg.isEmpty then (reg, [])
  else
    let built := buildToCall alive reg reg
    runToCall behavior args built.2 built.1

/-- The id of the Python object a callable value *is*, when the embedding
tracks it: a callable object or a function is the object with that id; a
(un)bound method value is an ephemeral method object whose own id is not
tracked.  Used for Python `is` checks in `Contains`. -/
def idOf : PyCallable → Option Nat
  | .callableObject o => some o
  | .function f => some f
  | .boundMethod _ _ _ => none
  | .unboundMethod _ _ => none

/-- `Callback.Contains` (`_callback.py`): looks up the key; when the stored
entry has a weak `func_obj`, a dead receiver deletes the entry and answers
`False`, a live one answers `real_func is func_obj or real_func ==
MethodType(func_func, func_obj)` (bound-method equality compares `__self__`
and `__func__`); when there is no `func_obj`, it answers `func_func ==
real_func` or, falling back to `real_func.__func__`, `real_func.__func__ ==
func_func` (`False` when `real_func` has no `__func__`).  Returns the
possibly-pruned registry together with the boolean answer. -/
def Contains (alive : Nat → Bool) (reg : Registry) (func : PyCallable) : Registry × Bool :=
  let key := GetKey func
  match lookupKey key reg with
  | none => (reg, false)
  | some info_and_extra =>
    let info := info_and_extra.1
    match info.func_obj with
    | some o =>
      if alive o then
        (reg, (idOf func == some o) ||
          (match info.func_func, func with
           | some ff, .boundMethod s g _ => s == o && g == ff
           | _, _ => false))
      else
        (UnregisterByKey reg key, false)
    | none =>
      match info.func_func with
      | some ff =>
        (reg, (idOf func == some ff) ||
          (match func with
           | .boundMethod _ g _ => g == ff
           | .unboundMethod g _ => g == ff
           | _ => false))
      | none => (reg, false)

/-- `Callback.__len__`: `len(self._callbacks)` — entries not yet lazily
pruned included. -/
def lenC (reg : Registry) : Nat := reg.length

/-- The unregister token returned by `Callback.Register`
(`_UnregisterContext` in `_callback.py`): it stores the originating
registry (here implicit: its `Unregister` is applied to a registry state)
and the internal key. -/
structure UnregisterContext where
  key : CallbackKey
deriving DecidableEq, Repr

/-- `Callback.Register` including its return value: the body ends with
`return _UnregisterContext(self, key)`. -/
def RegisterWithContext (reg : Registry) (func : PyCallable) (extra : List Nat) :
    Registry × Option UnregisterContext :=
  (Register reg func extra, some ⟨GetKey func⟩)

/-- `_UnregisterContext.Unregister`:
`self._callback._UnregisterByKey(self._key)`. -/
def UnregisterContext.Unregister (ctx : UnregisterContext) (reg : Registry) : Registry :=
  UnregisterByKey reg ctx.key

end Callback

namespace PriorityCallback

open Callback

/-- A priority registry entry: `PriorityCallback._GetInfo` appends the
priority to the info tuple (`info + (priority,)`,
`INFO_POS_PRIORITY = 3`), so the stored value is
`((func_obj, func_func, func_class, priority), extra_args)`. -/
abbrev PEntry := CallbackKey × (CallbackInfo × Int) × List Nat

/-- The priority registry `odict`, in iteration order. -/
abbrev PRegistry := List PEntry

/-- The loop `for i, (info, _extra) in enumerate(callbacks.values()): if
info[INFO_POS_PRIORITY] > priority: break`: index of the first entry whose
priority is strictly greater, `none` when the loop finishes without a
break. -/
def priorityScan (priority : Int) : PRegistry → Option Nat
  | [] => none
  | e :: rest =>
    if e.2.1.2 > priority then some 0
    else (priorityScan priority rest).map Nat.succ

/-- The insertion index computed by `PriorityCallback.Register`: `i` is the
break index; with no break, the `for`/`else` leaves `i` at the last
enumerate index and then runs `i += 1` — that is `len(callbacks)` for a
nonempty registry and `0 + 1 = 1` for an empty one (where `i` keeps its
initialisation `i = 0`). -/
def priorityIndex (priority : Int) (reg : PRegistry) : Nat :=
  match priorityScan priority reg with
  | some j => j
  | none => if reg.isEmpty then 1 else reg.length

/-- `odict.insert(index, key, value)` (`odict.py`): assigns at the end and
then moves keys around, which places the new binding at position
`min index len` — an index beyond the end appends. -/
def odictInsert {α : Type} (i : Nat) (x : α) (l : List α) : List α :=
  l.take i ++ [x] ++ l.drop i

/-- `PriorityCallback.Register` (`_priority_callback.py`): pops any existing
entry for the key, scans for the insertion index and inserts
`(info + (priority,), extra_args)` there.  The method is annotated
`-> None` and its body has no `return` statement, so alongside the new
registry it returns Python `None` — modelled as `none` (contrast
`Callback.RegisterWithContext`, which returns an unregister token). -/
def Register (reg : PRegistry) (func : PyCallable) (extra : List Nat) (priority : Int) :
    PRegistry × Option UnregisterContext :=
  let key := GetKey func
  let reg1 := popKey key reg
  let i := priorityIndex priority reg1
  (odictInsert i (key, (GetInfo func, priority), extra) reg1, none)

/-- `PriorityCallback` inherits `Callback.__call__`, which reads only the
info positions 0 and 1; dropping the appended priority recovers the view
dispatch operates on. -/
def toRegistry (reg : PRegistry) : Registry :=
  reg.map (fun e => (e.1, e.2.1.1, e.2.2))

/-- Dispatch of a priority registry: `Callback.__call__` on the stored
entries (mutation behaviour omitted: the priority dispatch claims do not
mutate mid-round). -/
def callP (alive : Nat → Bool) (args : List Nat) (reg : PRegistry) :
    Registry × List (PyCallable × List Nat) :=
  Callback.call alive (fun _ => []) args (toRegistry reg)

end PriorityCallback

/-! ## Method interception (`_shortcuts.py`)

`_MethodWrapper` stores its original method behind a `WeakMethodRef`
(`weak_ref.py`): for a bound method the receiver is held weakly and the
call operator rebuilds `MethodType(_func, _obj())`, returning `None` once
the receiver is dead; for anything else the callable itself is held
strongly and returned unchanged. -/

/-- Resolution of a `WeakMethodRef` built from the given callable:
`None` (here `none`) exactly when the callable was a bound method whose
receiver has died. -/
def WeakMethodRef.resolve (alive : Nat → Bool) : PyCallable → Option PyCallable
  | .boundMethod s f c => if alive s then some (.boundMethod s f c) else none
  | m => some m

/-- `_MethodWrapper` (`_shortcuts.py`): lazily created "before" and "after"
registries plus the weakly held original method. -/
structure MethodWrapper where
  before : Option Callback.Registry
  after : Option Callback.Registry
  method : PyCallable
deriving Repr

namespace MethodWrapper

/-- `_MethodWrapper.__init__`: both hook registries start as `None`. -/
def mkWrapper (method : PyCallable) : MethodWrapper :=
  ⟨none, none, method⟩

/-- `_MethodWrapper.AppendBefore`: create the "before" registry on first
use, then `Register(callback, extra_args)`. -/
def AppendBefore (w : MethodWrapper) (callback : PyCallable) (extra : List Nat) : MethodWrapper :=
  { w with before := some (Callback.Register (w.before.getD []) callback extra) }

/-- `_MethodWrapper.AppendAfter`: create the "after" registry on first use,
then `Register(callback, extra_args)`. -/
def AppendAfter (w : MethodWrapper) (callback : PyCallable) (extra : List Nat) : MethodWrapper :=
  { w with after := some (Callback.Register (w.after.getD []) callback extra) }

/-- `_MethodWrapper.__call__`: invoke the "before" registry (if any) with
the call's arguments; resolve the original method, raising
`ReferenceError` when its receiver has died; call it; invoke the "after"
registry (if any); return the original call's return value.  The semantics
of invoked callables is abstracted by `retOf` (each callable's return
value on given arguments); hook return values never enter the result.
Returns the updated wrapper, the call's return value, and the trace of all
invocations in order. -/
def callW (alive : Nat → Bool) (behavior : Callback.Behavior)
    (retOf : PyCallable → List Nat → Nat) (args : List Nat) (w : MethodWrapper) :
    Except String (MethodWrapper × Nat × List (PyCallable × List Nat)) :=
  let beforeRun : Option Callback.Registry × List (PyCallable × List Nat) :=
    match w.before with
    | none => (none, [])
    | some r =>
      let res := Callback.call alive behavior args r
      (some res.1, res.2)
  match WeakMethodRef.resolve alive w.method with
  | none =>
    .error "Error: the object that contained this method has already been garbage collected"
  | some m =>
    let result := retOf m args
    let afterRun : Option Callback.Registry × List (PyCallable × List Nat) :=
      match w.after with
      | none => (none, [])
      | some r =>
        let res := Callback.call alive behavior args r
        (some res.1, res.2)
    .ok ({ w with before := beforeRun.1, after := afterRun.1 },
         result,
         beforeRun.2 ++ [(m, args)] ++ afterRun.2)

end MethodWrapper

/-- `Before(method, callback)` with `sender_as_parameter=False`
(`_shortcuts.py`): wraps the method (here: the already-obtained wrapper)
and appends the callback to the "before" registry with empty
`extra_args`. -/
def Before (w : MethodWrapper) (callback : PyCallable) : MethodWrapper :=
  w.AppendBefore callback []

/-- `After(method, callback)` with `sender_as_parameter=False`
(`_shortcuts.py`): appends the callback to the "after" registry with empty
`extra_args`. -/
def After (w : MethodWrapper) (callback : PyCallable) : MethodWrapper :=
  w.AppendAfter callback []

/-! ## `SingleCallCallback` (`single_call_callback.py`) -/

/-- `SingleCallCallback` state: the weakly held callback parameter
(`none` models constructing with `None`), the inner `Callback`, the done
flag, and the frozen positional arguments. -/
structure SingleCallCallback where
  callback_parameter : Option Nat
  done_callbacks : Callback.Registry
  done : Bool
  args : List Nat
deriving Repr

namespace SingleCallCallback

/-- `SingleCallCallback.__init__`. -/
def mkSCC (callback_parameter : Option Nat) : SingleCallCallback :=
  ⟨callback_parameter, [], false, []⟩

/-- `SingleCallCallback.__call__`: raise `AssertionError` when already done;
store the arguments; resolve the weak parameter, raising `ReferenceError`
when it has died; set `_done = True` and dispatch the inner callback with
the parameter (if any) prepended to the arguments.  Returns the updated
state and either an error message or the dispatch trace. -/
def callSCC (alive : Nat → Bool) (args : List Nat) (s : SingleCallCallback) :
    SingleCallCallback × Except String (List (PyCallable × List Nat)) :=
  if s.done then
    (s, .error "This callback can only be called once.")
  else
    let s1 := { s with args := args }
    match s.callback_parameter with
    | some p =>
      if alive p then
        let res := Callback.call alive (fun _ => []) (p :: args) s1.done_callbacks
        ({ s1 with done := true, done_callbacks := res.1 }, .ok res.2)
      else
        (s1, .error "Callback parameter is already garbage collected.")
    | none =>
      let res := Callback.call alive (fun _ => []) args s1.done_callbacks
      ({ s1 with done := true, done_callbacks := res.1 }, .ok res.2)

/-- `SingleCallCallback.Register`: check the weak parameter (raising
`ReferenceError` when dead), query `Contains` (which may prune), register
the callable, and — when already done and the callable was not contained —
invoke it immediately with the frozen arguments (parameter prepended when
present).  Returns the updated state and either an error or the list of
immediate invocations. -/
def RegisterSCC (alive : Nat → Bool) (fn : PyCallable) (s : SingleCallCallback) :
    SingleCallCallback × Except String (List (PyCallable × List Nat)) :=
  let paramCheck : Except String (Option Nat) :=
    match s.callback_parameter with
    | some p => if alive p then .ok (some p) else .error "Callback parameter is already garbage collected."
    | none => .ok none
  match paramCheck with
  | .error msg => (s, .error msg)
  | .ok param =>
    let contRes := Callback.Contains alive s.done_callbacks fn
    let reg2 := Callback.Register contRes.1 fn []
    let s2 := { s with done_callbacks := reg2 }
    if s.done && !contRes.2 then
      match param with
      | some p => (s2, .ok [(fn, p :: s.args)])
      | none => (s2, .ok [(fn, s.args)])
    else
      (s2, .ok [])

/-- `SingleCallCallback.AllowCallingAgain`: `self._done = False`. -/
def AllowCallingAgain (s : SingleCallCallback) : SingleCallCallback :=
  { s with done := false }

end SingleCallCallback

/-! ## `WeakList` (`weak_ref.py`) -/

/-- `WeakList`: internally a list of weak references, modelled by the
referred object ids in order. -/
structure WeakList where
  data : List Nat
deriving DecidableEq, Repr

namespace WeakList

/-- `WeakList.__getitem__` with an integer index: `return self.data[i]()` —
resolve the i-th stored reference (yielding Python `None`, here the inner
`none`, when the referent is dead).  The outer `none` models the
`IndexError` of an out-of-range index.  `self.data` is not touched, so the
structure is returned unchanged. -/
def getItem (alive : Nat → Bool) (l : WeakList) (i : Nat) : WeakList × Option (Option Nat) :=
  (l, (l.data.get? i).map (fun r => if alive r then some r else none))

/-- `WeakList.__iter__`: iterate a copy of `self.data`, removing every
reference whose referent is dead and yielding the live referents. -/
def iterW (alive : Nat → Bool) (l : WeakList) : WeakList × List Nat :=
  (⟨l.data.filter alive⟩, l.data.filter alive)

/-- `WeakList.__len__`: an iteration (pruning dead references) counting the
live elements. -/
def lenW (alive : Nat → Bool) (l : WeakList) : WeakList × Nat :=
  (⟨l.data.filter alive⟩, (l.data.filter alive).length)

end WeakList

/-! ## General lemmas about the registry operations -/

namespace Callback

/-- The trace of the invocation loop is exactly the `to_call` snapshot with
the call's arguments appended — independent of the registry state it
threads and of any mutations the invoked callables perform. -/
theorem runToCall_snd (b : Behavior) (args : List Nat) :
    ∀ (l : List (PyCallable × List Nat)) (reg : Registry),
      (runToCall b args l reg).2 = l.map (fun p => (p.1, p.2 ++ args)) := by
  intro l
  induction l with
  | nil => intro reg; rfl
  | cons hd tl ih =>
    intro reg
    cases hd with
    | mk f extra => simp [runToCall, ih]

/-- The `to_call` snapshot built by the first phase of `__call__` does not
depend on the registry state threaded through for pruning. -/
theorem buildToCall_snd_const (alive : Nat → Bool) :
    ∀ (l : List Entry) (reg1 reg2 : Registry),
      (buildToCall alive l reg1).2 = (buildToCall alive l reg2).2 := by
  intro l
  induction l with
  | nil => intro reg1 reg2; rfl
  | cons e rest ih =>
    intro reg1 reg2
    simp only [buildToCall]
    cases hObj : e.2.1.func_obj with
    | some o =>
      by_cases ha : alive o
      · simp [ha, ih reg1 reg2]
      · simp [ha, ih (UnregisterByKey reg1 e.1) (UnregisterByKey reg2 e.1)]
    | none =>
      cases hF : e.2.1.func_func with
      | some f => simp [ih reg1 reg2]
      | none => simp [ih reg1 reg2]

/-- The trace of one dispatch round is the snapshot taken at its start,
with the arguments appended to each entry's extra arguments. -/
theorem call_snd (alive : Nat → Bool) (b : Behavior) (args : List Nat) (reg : Registry) :
    (call alive b args reg).2
      = ((buildToCall alive reg reg).2).map (fun p => (p.1, p.2 ++ args)) := by
  unfold call
  by_cases h : reg.isEmpty
  · have : reg = [] := by
      cases reg with
      | nil => rfl
      | cons e rest => simp [List.isEmpty] at h
    subst this
    simp [buildToCall]
  · simp [h, runToCall_snd]

/-- Popping a key leaves the other keys, in order. -/
theorem map_fst_popKey {β : Type} (key : CallbackKey) :
    ∀ l : List (CallbackKey × β),
      (popKey key l).map Prod.fst = (l.map Prod.fst).filter (fun k => k ≠ key) := by
  intro l
  induction l with
  | nil => rfl
  | cons e rest ih =>
    by_cases h : e.1 = key
    · simp [popKey, h, ih]
    · simp [popKey, h, ih]

/-- Popping an absent key is a no-op. -/
theorem popKey_not_mem {β : Type} (key : CallbackKey) :
    ∀ l : List (CallbackKey × β), key ∉ l.map Prod.fst → popKey key l = l := by
  intro l
  induction l with
  | nil => intro _; rfl
  | cons e rest ih =>
    intro h
    simp only [List.map_cons, List.mem_cons] at h
    push_neg at h
    simp [popKey, Ne.symm h.1, ih h.2]

/-- Popping a key twice is the same as popping it once. -/
theorem popKey_idem {β : Type} (key : CallbackKey) (l : List (CallbackKey × β)) :
    popKey key (popKey key l) = popKey key l := by
  apply popKey_not_mem
  rw [map_fst_popKey]
  simp

end Callback

/-! ## Claim theorems -/

open Callback

/-- C1: `_GetKey` computes, for a bound method, the triple of ids of the
receiver, the underlying function and the receiver's class; for an
unbound/class-scoped method the pair of ids of the function and class; for
any other callable the id of the callable itself.  Consequently two
registrations of the same bound method on the same live receiver share one
key, the second registration replaces the first entry, and one `Call`
dispatches the callable exactly once. -/
theorem C1_identity_key_and_idempotent_dispatch
    (s f c o g : Nat) (e1 e2 args : List Nat)
    (alive : Nat → Bool) (b : Behavior) (h : alive s = true) :
    GetKey (.boundMethod s f c) = .keyBound s f c
    ∧ GetKey (.unboundMethod g c) = .keyUnbound g c
    ∧ GetKey (.callableObject o) = .keyPlain o
    ∧ GetKey (.function g) = .keyPlain g
    ∧ Register (Register [] (.boundMethod s f c) e1) (.boundMethod s f c) e2
        = [(.keyBound s f c, ⟨some s, some f, some c⟩, e2)]
    ∧ (call alive b args
          (Register (Register [] (.boundMethod s f c) e1) (.boundMethod s f c) e2)).2
        = [(.boundMethod s f c, e2 ++ args)] := by
  refine ⟨rfl, rfl, rfl, rfl, ?_, ?_⟩
  · simp [Register, popKey, GetKey, GetInfo]
  · rw [call_snd]
    simp [Register, popKey, GetKey, GetInfo, buildToCall, h]

/-- Witness for C1 at concrete inputs. -/
theorem C1_identity_key_and_idempotent_dispatch_witness :
    GetKey (.boundMethod 0 1 2) = .keyBound 0 1 2
    ∧ GetKey (.unboundMethod 4 2) = .keyUnbound 4 2
    ∧ GetKey (.callableObject 3) = .keyPlain 3
    ∧ GetKey (.function 4) = .keyPlain 4
    ∧ Register (Register [] (.boundMethod 0 1 2) []) (.boundMethod 0 1 2) [5]
        = [(.keyBound 0 1 2, ⟨some 0, some 1, some 2⟩, [5])]
    ∧ (call (fun _ => true) (fun _ => []) [6]
          (Register (Register [] (.boundMethod 0 1 2) []) (.boundMethod 0 1 2) [5])).2
        = [(.boundMethod 0 1 2, [5, 6])] :=
  C1_identity_key_and_idempotent_dispatch 0 1 2 3 4 [] [5] [6]
    (fun _ => true) (fun _ => []) rfl

/-- C2: during one dispatch round, registrations or unregistrations
performed by invoked callables never change the set of callables invoked
in that round (the trace only depends on the snapshot taken at the round's
start); a mutation is reflected in the next round — concretely, when the
only registered callable registers a second one during dispatch, the first
round invokes just the first callable and the next round invokes both. -/
theorem C2_mutation_snapshot_isolation
    (alive : Nat → Bool) (b1 b2 : Behavior) (args : List Nat) (reg : Registry) :
    (call alive b1 args reg).2 = (call alive b2 args reg).2
    ∧ (let regA := Register [] (.function 1) []
       let bA : Behavior := fun f => if f = .function 1 then [.register (.function 2) []] else []
       let aliveT : Nat → Bool := fun _ => true
       (call aliveT bA [] regA).2 = [(.function 1, [])]
       ∧ (call aliveT bA [] (call aliveT bA [] regA).1).2
           = [(.function 1, []), (.function 2, [])]) := by
  refine ⟨?_, by decide, by decide⟩
  rw [call_snd, call_snd]

/-- C3: with a bound method registered and its receiver dead, one dispatch
round deletes the dead entry (the registry becomes empty, length 0) while
invoking nothing (so nothing is raised), and one `Contains` check with a
matching callable likewise deletes the entry and answers false. -/
theorem C3_dead_receiver_pruning
    (s f c : Nat) (extra args : List Nat) (alive : Nat → Bool) (b : Behavior)
    (h : alive s = false) :
    (call alive b args (Register [] (.boundMethod s f c) extra)).1 = []
    ∧ (call alive b args (Register [] (.boundMethod s f c) extra)).2 = []
    ∧ lenC (call alive b args (Register [] (.boundMethod s f c) extra)).1 = 0
    ∧ Contains alive (Register [] (.boundMethod s f c) extra) (.boundMethod s f c)
        = ([], false) := by
  have hreg : Register [] (.boundMethod s f c) extra
      = [(.keyBound s f c, ⟨some s, some f, some c⟩, extra)] := by
    simp [Register, popKey, GetKey, GetInfo]
  refine ⟨?_, ?_, ?_, ?_⟩
  · rw [hreg]
    simp [call, buildToCall, h, runToCall, UnregisterByKey, popKey]
  · rw [hreg]
    simp [call, buildToCall, h, runToCall, UnregisterByKey, popKey]
  · rw [hreg]
    simp [call, buildToCall, h, runToCall, UnregisterByKey, popKey, lenC]
  · rw [hreg]
    simp [Contains, lookupKey, GetKey, h, UnregisterByKey, popKey]

/-- Witness for C3 at concrete inputs. -/
theorem C3_dead_receiver_pruning_witness :
    (call (fun _ => false) (fun _ => []) [1] (Register [] (.boundMethod 7 8 9) [5])).1 = []
    ∧ (call (fun _ => false) (fun _ => []) [1] (Register [] (.boundMethod 7 8 9) [5])).2 = []
    ∧ lenC (call (fun _ => false) (fun _ => []) [1] (Register [] (.boundMethod 7 8 9) [5])).1 = 0
    ∧ Contains (fun _ => false) (Register [] (.boundMethod 7 8 9) [5]) (.boundMethod 7 8 9)
        = ([], false) :=
  C3_dead_receiver_pruning 7 8 9 [5] [1] (fun _ => false) (fun _ => []) rfl

/-- C4 counterexample: registering `function 1`, then `function 2`, then
`function 1` again leaves the registry in order `[key 2, key 1]` — the
re-registration moved the existing key to the end, contradicting the claim
that a re-registration does not change the entry's position (which would
require order `[key 1, key 2]`). -/
theorem C4_reregistration_counterexample :
    (Register (Register (Register [] (.function 1) []) (.function 2) []) (.function 1) []).map
        Prod.fst
      = [.keyPlain 2, .keyPlain 1]
    ∧ (Register (Register (Register [] (.function 1) []) (.function 2) []) (.function 1) []).map
        Prod.fst
      ≠ [.keyPlain 1, .keyPlain 2] := by
  decide

/-- C4 (amended): a plain registry dispatches in order of most recent
registration: `Register` removes any existing entry for the callable's key
and appends the new entry at the end, so a re-registration moves the entry
to the end of the dispatch order; only registrations of fresh keys extend
the order.  Concretely, registering functions 1, 2 and then 1 again
dispatches 2 before 1. -/
theorem C4_registration_order
    (reg : Registry) (m : PyCallable) (e : List Nat) :
    (Register reg m e).map Prod.fst
      = (reg.map Prod.fst).filter (fun k => k ≠ GetKey m) ++ [GetKey m]
    ∧ (call (fun _ => true) (fun _ => []) []
        (Register (Register (Register [] (.function 1) []) (.function 2) []) (.function 1) [])).2
      = [(.function 2, []), (.function 1, [])] := by
  refine ⟨?_, by decide⟩
  simp [Register, map_fst_popKey]


/-- C5 counterexample: with `function 1` and `function 2` registered in that
order and `function 1` unregistering `function 2` when invoked, the round
still invokes `function 2` (the claim predicts the trace
`[(function 1, [])]`, skipping it); the unregistration only takes effect
for the next round. -/
theorem C5_unregister_later_entry_counterexample :
    (call (fun _ => true)
        (fun f => if f = .function 1 then [.unregister (.function 2)] else []) []
        (Register (Register [] (.function 1) []) (.function 2) [])).2
      = [(.function 1, []), (.function 2, [])]
    ∧ (call (fun _ => true)
        (fun f => if f = .function 1 then [.unregister (.function 2)] else []) []
        (Register (Register [] (.function 1) []) (.function 2) [])).2
      ≠ [(.function 1, [])] := by
  decide

/-- C5 (amended): if an invoked callable unregisters an entry occurring
later in the same round's order, that later entry is NOT skipped: every
callable resolved into the round's snapshot is invoked in the current
round no matter what the callables executed before it did to the registry;
the removal is effective from the next round (concretely, in the
two-function scenario the next round invokes only `function 1`). -/
theorem C5_later_entry_still_invoked
    (alive : Nat → Bool) (b : Behavior) (args : List Nat) (reg : Registry)
    (p : PyCallable × List Nat) (hp : p ∈ (buildToCall alive reg reg).2) :
    (p.1, p.2 ++ args) ∈ (call alive b args reg).2
    ∧ (call (fun _ => true)
        (fun f => if f = .function 1 then [.unregister (.function 2)] else []) []
        (call (fun _ => true)
          (fun f => if f = .function 1 then [.unregister (.function 2)] else []) []
          (Register (Register [] (.function 1) []) (.function 2) [])).1).2
      = [(.function 1, [])] := by
  refine ⟨?_, by decide⟩
  rw [call_snd]
  exact List.mem_map_of_mem _ hp

/-- Witness for C5 (amended) at concrete inputs. -/
theorem C5_later_entry_still_invoked_witness :
    ((PyCallable.function 2, ([] : List Nat)) ∈
      (buildToCall (fun _ => true)
        (Register (Register [] (.function 1) []) (.function 2) [])
        (Register (Register [] (.function 1) []) (.function 2) [])).2)
    ∧ ((PyCallable.function 2, ([] : List Nat)) ∈
        (call (fun _ => true)
          (fun f => if f = .function 1 then [.unregister (.function 2)] else []) []
          (Register (Register [] (.function 1) []) (.function 2) [])).2) := by
  refine ⟨by decide, ?_⟩
  have h := C5_later_entry_still_invoked (fun _ => true)
    (fun f => if f = .function 1 then [.unregister (.function 2)] else []) []
    (Register (Register [] (.function 1) []) (.function 2) [])
    (PyCallable.function 2, ([] : List Nat)) (by decide)
  simpa using h.1

/-- When the linear scan of `PriorityCallback.Register` finishes without a
break, every present entry has priority at most the new one. -/
theorem priorityScan_none_le (p : Int) :
    ∀ reg : PriorityCallback.PRegistry, PriorityCallback.priorityScan p reg = none →
      ∀ e ∈ reg, e.2.1.2 ≤ p := by
  intro reg
  induction reg with
  | nil => intro _ e he; cases he
  | cons hd tl ih =>
    intro hnone e he
    simp only [PriorityCallback.priorityScan] at hnone
    by_cases hgt : hd.2.1.2 > p
    · simp [hgt] at hnone
    · rw [if_neg hgt, Option.map_eq_none'] at hnone
      rcases List.mem_cons.mp he with he | he
      · subst he; exact le_of_not_lt hgt
      · exact ih hnone e he

/-- When the linear scan breaks at index `j`, every entry before `j` has
priority at most the new one and the entry at `j` has strictly greater
priority. -/
theorem priorityScan_some_spec (p : Int) :
    ∀ (reg : PriorityCallback.PRegistry) (j : Nat),
      PriorityCallback.priorityScan p reg = some j →
        (∀ e ∈ reg.take j, e.2.1.2 ≤ p)
        ∧ ∃ f2 rest2, reg.drop j = f2 :: rest2 ∧ p < f2.2.1.2 := by
  intro reg
  induction reg with
  | nil => intro j h; simp [PriorityCallback.priorityScan] at h
  | cons hd tl ih =>
    intro j h
    simp only [PriorityCallback.priorityScan] at h
    by_cases hgt : hd.2.1.2 > p
    · rw [if_pos hgt] at h
      cases h
      refine ⟨?_, hd, tl, rfl, hgt⟩
      intro e he
      simp at he
    · rw [if_neg hgt] at h
      rcases Option.map_eq_some'.mp h with ⟨j0, hj0, rfl⟩
      rcases ih j0 hj0 with ⟨htake, f2, rest2, hdrop, hf2⟩
      refine ⟨?_, f2, rest2, ?_, hf2⟩
      · intro e he
        rcases List.mem_cons.mp (by simpa using he) with he | he
        · subst he; exact le_of_not_lt hgt
        · exact htake e he
      · simpa using hdrop

/-- C6: `PriorityCallback.Register` inserts a new entry immediately before
the first existing entry whose priority is strictly greater than the new
one (everything before the insertion point has priority at most the new
one), or at the end when no such entry exists — so equal-priority entries
keep their relative registration order.  Concretely, registering functions
1..5 with priorities [2,2,1,3,2] dispatches the priority-1 entry first,
then the three priority-2 entries in original relative order, then the
priority-3 entry. -/
theorem C6_priority_insertion
    (reg : PriorityCallback.PRegistry) (func : PyCallable) (extra : List Nat) (p : Int)
    (hfresh : GetKey func ∉ reg.map Prod.fst) :
    (∀ e ∈ reg.take (PriorityCallback.priorityIndex p reg), e.2.1.2 ≤ p)
    ∧ (∀ f2 rest2, reg.drop (PriorityCallback.priorityIndex p reg) = f2 :: rest2 →
        p < f2.2.1.2)
    ∧ (PriorityCallback.Register reg func extra p).1
        = reg.take (PriorityCallback.priorityIndex p reg)
          ++ [(GetKey func, (GetInfo func, p), extra)]
          ++ reg.drop (PriorityCallback.priorityIndex p reg)
    ∧ (PriorityCallback.callP (fun _ => true) []
        (PriorityCallback.Register
          ((PriorityCallback.Register
            ((PriorityCallback.Register
              ((PriorityCallback.Register
                ((PriorityCallback.Register [] (.function 1) [] 2).1)
                (.function 2) [] 2).1)
              (.function 3) [] 1).1)
            (.function 4) [] 3).1)
          (.function 5) [] 2).1).2
      = [(.function 3, []), (.function 1, []), (.function 2, []),
         (.function 5, []), (.function 4, [])] := by
  have hpop : popKey (GetKey func) reg = reg := popKey_not_mem _ _ hfresh
  refine ⟨?_, ?_, ?_, by decide⟩
  · intro e he
    unfold PriorityCallback.priorityIndex at he
    cases hscan : PriorityCallback.priorityScan p reg with
    | some j =>
      rw [hscan] at he
      exact (priorityScan_some_spec p reg j hscan).1 e he
    | none =>
      rw [hscan] at he
      cases reg with
      | nil => simp at he
      | cons hd tl =>
        simp only [List.isEmpty_cons, if_neg Bool.false_ne_true] at he
        rw [List.take_length] at he
        exact priorityScan_none_le p _ hscan e he
  · intro f2 rest2 hdrop
    unfold PriorityCallback.priorityIndex at hdrop
    cases hscan : PriorityCallback.priorityScan p reg with
    | some j =>
      rw [hscan] at hdrop
      rcases (priorityScan_some_spec p reg j hscan).2 with ⟨g2, grest, hdrop2, hg2⟩
      rw [hdrop] at hdrop2
      cases hdrop2
      exact hg2
    | none =>
      rw [hscan] at hdrop
      cases reg with
      | nil =>
        simp at hdrop
      | cons hd tl =>
        simp only [List.isEmpty_cons, if_neg Bool.false_ne_true] at hdrop
        rw [List.drop_length] at hdrop
        cases hdrop
  · simp only [PriorityCallback.Register, PriorityCallback.odictInsert, hpop]

/-- Witness for C6 at a concrete registry holding one priority-1 entry. -/
theorem C6_priority_insertion_witness :
    (GetKey (.function 1) ∉
      ([(CallbackKey.keyPlain 9, (⟨none, some 9, none⟩, (1 : Int)), ([] : List Nat))] :
        PriorityCallback.PRegistry).map Prod.fst)
    ∧ (PriorityCallback.Register
        [(CallbackKey.keyPlain 9, (⟨none, some 9, none⟩, (1 : Int)), ([] : List Nat))]
        (.function 1) [] 2).1
      = ([(CallbackKey.keyPlain 9, (⟨none, some 9, none⟩, (1 : Int)), ([] : List Nat))] :
          PriorityCallback.PRegistry).take
            (PriorityCallback.priorityIndex 2
              [(CallbackKey.keyPlain 9, (⟨none, some 9, none⟩, (1 : Int)), ([] : List Nat))])
        ++ [(GetKey (.function 1), (GetInfo (.function 1), 2), [])]
        ++ ([(CallbackKey.keyPlain 9, (⟨none, some 9, none⟩, (1 : Int)), ([] : List Nat))] :
            PriorityCallback.PRegistry).drop
              (PriorityCallback.priorityIndex 2
                [(CallbackKey.keyPlain 9, (⟨none, some 9, none⟩, (1 : Int)), ([] : List Nat))]) :=
  ⟨by decide,
   (C6_priority_insertion
      [(CallbackKey.keyPlain 9, (⟨none, some 9, none⟩, (1 : Int)), ([] : List Nat))]
      (.function 1) [] 2 (by decide)).2.2.1⟩

/-- C7: after `Before(m, f)` and `After(m, g)` on a bound method `m`, a call
of the wrapper with arguments `x` invokes `f(x)`, then the original method
`m(x)`, then `g(x)`, in that order; the wrapper's return value is the
original method's return value whatever the hooks return (their values
never enter the result); and if the original method's receiver has died,
the wrapper raises a reference error. -/
theorem C7_before_after_ordering
    (s f c hf hg : Nat) (args : List Nat) (alive : Nat → Bool)
    (b : Behavior) (retOf : PyCallable → List Nat → Nat) :
    (alive s = true →
      ∃ w2, MethodWrapper.callW alive b retOf args
          (After (Before (MethodWrapper.mkWrapper (.boundMethod s f c)) (.function hf))
            (.function hg))
        = .ok (w2, retOf (.boundMethod s f c) args,
            [(.function hf, args), (.boundMethod s f c, args), (.function hg, args)]))
    ∧ (alive s = false →
      MethodWrapper.callW alive b retOf args
          (After (Before (MethodWrapper.mkWrapper (.boundMethod s f c)) (.function hf))
            (.function hg))
        = .error
            "Error: the object that contained this method has already been garbage collected") := by
  constructor
  · intro h
    refine ⟨⟨some (call alive b args (Register [] (.function hf) [])).1,
            some (call alive b args (Register [] (.function hg) [])).1,
            .boundMethod s f c⟩, ?_⟩
    simp [MethodWrapper.callW, After, Before, MethodWrapper.AppendBefore,
      MethodWrapper.AppendAfter, MethodWrapper.mkWrapper, Register, popKey, GetKey, GetInfo,
      WeakMethodRef.resolve, h, call, buildToCall, runToCall]
  · intro h
    simp [MethodWrapper.callW, After, Before, MethodWrapper.AppendBefore,
      MethodWrapper.AppendAfter, MethodWrapper.mkWrapper, WeakMethodRef.resolve, h]

/-- Witness for C7 at concrete inputs. -/
theorem C7_before_after_ordering_witness :
    ((fun _ : Nat => true) 1 = true →
      ∃ w2, MethodWrapper.callW (fun _ => true) (fun _ => [])
          (fun _ a => a.length + 100) [4, 5]
          (After (Before (MethodWrapper.mkWrapper (.boundMethod 1 2 3)) (.function 10))
            (.function 11))
        = .ok (w2, (fun _ : PyCallable => fun a : List Nat => a.length + 100)
                (.boundMethod 1 2 3) [4, 5],
            [(.function 10, [4, 5]), (.boundMethod 1 2 3, [4, 5]), (.function 11, [4, 5])])) :=
  (C7_before_after_ordering 1 2 3 10 11 [4, 5] (fun _ => true) (fun _ => [])
    (fun _ a => a.length + 100)).1

/-- C8: for a `SingleCallCallback` (constructed without a parameter): after
it has fired once with arguments `a`, registering a callable that was not
registered before the firing invokes it immediately and exactly once with
the frozen arguments `a`; re-registering a callable that was already
registered before the firing invokes nothing; and invoking the
`SingleCallCallback` a second time without an `AllowCallingAgain` reset
raises an error. -/
theorem C8_single_call_replay (gf gg : Nat) (hne : gf ≠ gg) (a a2 : List Nat)
    (alive : Nat → Bool) :
    (SingleCallCallback.callSCC alive a
        (SingleCallCallback.RegisterSCC alive (.function gf)
          (SingleCallCallback.mkSCC none)).1).2
      = .ok [(.function gf, a)]
    ∧ (SingleCallCallback.RegisterSCC alive (.function gg)
        (SingleCallCallback.callSCC alive a
          (SingleCallCallback.RegisterSCC alive (.function gf)
            (SingleCallCallback.mkSCC none)).1).1).2
      = .ok [(.function gg, a)]
    ∧ (SingleCallCallback.RegisterSCC alive (.function gf)
        (SingleCallCallback.callSCC alive a
          (SingleCallCallback.RegisterSCC alive (.function gf)
            (SingleCallCallback.mkSCC none)).1).1).2
      = .ok []
    ∧ (SingleCallCallback.callSCC alive a2
        (SingleCallCallback.RegisterSCC alive (.function gg)
          (SingleCallCallback.callSCC alive a
            (SingleCallCallback.RegisterSCC alive (.function gf)
              (SingleCallCallback.mkSCC none)).1).1).1).2
      = .error "This callback can only be called once." := by
  refine ⟨?_, ?_, ?_, ?_⟩ <;>
    simp [SingleCallCallback.mkSCC, SingleCallCallback.RegisterSCC,
      SingleCallCallback.callSCC, Contains, lookupKey, Register, popKey, GetKey, GetInfo,
      call, buildToCall, runToCall, idOf, hne]

/-- Witness for C8 at concrete inputs. -/
theorem C8_single_call_replay_witness :
    (SingleCallCallback.callSCC (fun _ => true) [10]
        (SingleCallCallback.RegisterSCC (fun _ => true) (.function 1)
          (SingleCallCallback.mkSCC none)).1).2
      = .ok [(.function 1, [10])]
    ∧ (SingleCallCallback.RegisterSCC (fun _ => true) (.function 2)
        (SingleCallCallback.callSCC (fun _ => true) [10]
          (SingleCallCallback.RegisterSCC (fun _ => true) (.function 1)
            (SingleCallCallback.mkSCC none)).1).1).2
      = .ok [(.function 2, [10])]
    ∧ (SingleCallCallback.RegisterSCC (fun _ => true) (.function 1)
        (SingleCallCallback.callSCC (fun _ => true) [10]
          (SingleCallCallback.RegisterSCC (fun _ => true) (.function 1)
            (SingleCallCallback.mkSCC none)).1).1).2
      = .ok []
    ∧ (SingleCallCallback.callSCC (fun _ => true) []
        (SingleCallCallback.RegisterSCC (fun _ => true) (.function 2)
          (SingleCallCallback.callSCC (fun _ => true) [10]
            (SingleCallCallback.RegisterSCC (fun _ => true) (.function 1)
              (SingleCallCallback.mkSCC none)).1).1).1).2
      = .error "This callback can only be called once." :=
  C8_single_call_replay 1 2 (by decide) [10] [] (fun _ => true)

/-- C9: the claim says both registry variants return an unregister token
from `Register`.  The plain `Callback.Register` does (and the token's
`Unregister` removes exactly the registered entry, with the same effect as
`Unregister` with the original callable, idempotently) — but
`PriorityCallback.Register` has no `return` statement and so returns
`None`, contradicting the claim, the repository's own test
(`test_priority_callback.py` calls `.Unregister()` on the result) and the
`PriorityCallback0` type stub.  This theorem evaluates the model at the
failing point: the priority variant's `Register` yields no token, while
the plain variant yields a token satisfying the claimed symmetry and
idempotence. -/
theorem C9_unregister_token_priority_bug
    (reg : PriorityCallback.PRegistry) (func : PyCallable) (extra : List Nat) (p : Int)
    (reg2 : Registry) (f2 : PyCallable) (e2 : List Nat) (ctx : UnregisterContext) :
    (PriorityCallback.Register reg func extra p).2 = none
    ∧ (RegisterWithContext reg2 f2 e2).2 = some ⟨GetKey f2⟩
    ∧ UnregisterContext.Unregister ⟨GetKey f2⟩ (RegisterWithContext reg2 f2 e2).1
        = Unregister (RegisterWithContext reg2 f2 e2).1 f2
    ∧ UnregisterContext.Unregister ctx (UnregisterContext.Unregister ctx reg2)
        = UnregisterContext.Unregister ctx reg2 := by
  refine ⟨rfl, rfl, rfl, ?_⟩
  exact popKey_idem ctx.key reg2

/-- C10: indexing a `WeakList` with an integer returns the resolved
referent of the i-th stored reference — `None` when that referent has been
garbage collected — and leaves the stored references untouched (a dead
entry still occupies its position and yields `None`), whereas iteration
and length computation prune dead references from the list. -/
theorem C10_weaklist_indexing (alive : Nat → Bool) (l : WeakList) (i r : Nat)
    (hget : l.data.get? i = some r) :
    (WeakList.getItem alive l i).1 = l
    ∧ (WeakList.getItem alive l i).2 = some (if alive r then some r else none)
    ∧ (alive r = false →
        (WeakList.getItem alive l i).2 = some none
        ∧ ((WeakList.getItem alive l i).1).data.get? i = some r)
    ∧ (WeakList.iterW alive l).1.data = l.data.filter alive
    ∧ (WeakList.iterW alive l).2 = l.data.filter alive
    ∧ (WeakList.lenW alive l).1.data = l.data.filter alive
    ∧ (WeakList.lenW alive l).2 = (l.data.filter alive).length := by
  have hsnd : (WeakList.getItem alive l i).2
      = (l.data.get? i).map (fun x => if alive x then some x else none) := rfl
  refine ⟨rfl, ?_, ?_, rfl, rfl, rfl, rfl⟩
  · rw [hsnd, hget]; rfl
  · intro hdead
    refine ⟨?_, hget⟩
    rw [hsnd, hget]
    simp [hdead]

/-- Witness for C10: a one-element `WeakList` whose single referent is
dead. -/
theorem C10_weaklist_indexing_witness :
    (WeakList.getItem (fun _ => false) ⟨[3]⟩ 0).1 = (⟨[3]⟩ : WeakList)
    ∧ (WeakList.getItem (fun _ => false) ⟨[3]⟩ 0).2
        = some (if (fun _ : Nat => false) 3 then some 3 else none)
    ∧ ((fun _ : Nat => false) 3 = false →
        (WeakList.getItem (fun _ => false) ⟨[3]⟩ 0).2 = some none
        ∧ ((WeakList.getItem (fun _ => false) ⟨[3]⟩ 0).1).data.get? 0 = some 3)
    ∧ (WeakList.iterW (fun _ => false) ⟨[3]⟩).1.data = ([3] : List Nat).filter (fun _ => false)
    ∧ (WeakList.iterW (fun _ => false) ⟨[3]⟩).2 = ([3] : List Nat).filter (fun _ => false)
    ∧ (WeakList.lenW (fun _ => false) ⟨[3]⟩).1.data = ([3] : List Nat).filter (fun _ => false)
    ∧ (WeakList.lenW (fun _ => false) ⟨[3]⟩).2
        = (([3] : List Nat).filter (fun _ => false)).length :=
  C10_weaklist_indexing (fun _ => false) ⟨[3]⟩ 0 3 rfl
